import Mathlib

/-!
Shallow embedding of the AWS CDK stacks of this repository
(src/lib/bs-ec2app-stack.ts, src/lib/gc-alb-fargate-stack.ts,
src/lib/gc-investigation-instance-stack.ts) and of the application entry
file (src/unnamed/part_000).  Each stack constructor is embedded as a pure
Lean function from its props record to a record of the constructs it
creates, following the source line by line.  CDK-library attributes that
are deploy-time tokens (ARNs, cluster/service names, load-balancer full
names) are modelled as injective functions of the construct id.
-/

/-- A CDK Duration, stored in seconds (Duration.days d = 86400*d seconds,
Duration.minutes m = 60*m seconds). -/
structure Duration where
  seconds : Nat
deriving DecidableEq, Repr

/-- Mirror of cdk.Duration.seconds. -/
def Duration.ofSeconds (s : Nat) : Duration := ⟨s⟩

/-- Mirror of cdk.Duration.minutes. -/
def Duration.ofMinutes (m : Nat) : Duration := ⟨m * 60⟩

/-- Mirror of cdk.Duration.days. -/
def Duration.ofDays (d : Nat) : Duration := ⟨d * 86400⟩

/-- Mirror of ec2.Peer: either any IPv4 address or a security group
(identified by its construct id) used as a connection peer. -/
inductive Peer where
  | anyIpv4 : Peer
  | securityGroupOf : String → Peer
deriving DecidableEq, Repr

/-- Mirror of ec2.Port as used in this repository. -/
inductive Port where
  | tcp : Nat → Port
  | allTcp : Port
  | allTraffic : Port
deriving DecidableEq, Repr

/-- One ingress or egress rule of a security group. -/
structure SecurityGroupRule where
  peer : Peer
  port : Port
deriving DecidableEq, Repr

/-- Mirror of ec2.SecurityGroup with the rules added by
addIngressRule and addEgressRule, in call order. -/
structure SecurityGroup where
  constructId : String
  vpc : String
  allowAllOutbound : Bool
  ingressRules : List SecurityGroupRule
  egressRules : List SecurityGroupRule
deriving DecidableEq, Repr

/-- Mirror of s3.StorageClass as used in this repository. -/
inductive StorageClass where
  | glacier
deriving DecidableEq, Repr

/-- One transition entry of an s3 lifecycle rule. -/
structure BucketTransition where
  storageClass : StorageClass
  transitionAfter : Duration
deriving DecidableEq, Repr

/-- Mirror of an s3 lifecycle rule as used in this repository. -/
structure LifecycleRule where
  enabled : Bool
  expiration : Option Duration
  transitions : List BucketTransition
deriving DecidableEq, Repr

/-- Mirror of s3.BucketAccessControl as used in this repository. -/
inductive BucketAccessControl where
  | priv
deriving DecidableEq, Repr

/-- Mirror of s3.BucketEncryption; kmsWith carries the key identifier
passed as encryptionKey. -/
inductive BucketEncryption where
  | kmsWith : String → BucketEncryption
  | s3Managed : BucketEncryption
  | unencrypted : BucketEncryption
deriving DecidableEq, Repr

/-- Mirror of cdk.RemovalPolicy as used in this repository. -/
inductive RemovalPolicy where
  | destroy
  | retain
deriving DecidableEq, Repr

/-- Mirror of s3.HttpMethods as used in this repository. -/
inductive HttpMethod where
  | get
  | head
deriving DecidableEq, Repr

/-- One CORS rule of an s3 bucket. -/
structure CorsRule where
  allowedOrigins : List String
  allowedMethods : List HttpMethod
deriving DecidableEq, Repr

/-- Mirror of iam principals as used in this repository. -/
inductive Principal where
  | anyPrincipal
deriving DecidableEq, Repr

/-- Mirror of iam.Effect. -/
inductive Effect where
  | allow
  | deny
deriving DecidableEq, Repr

/-- Mirror of iam.PolicyStatement; conditions is the list of
(operator, list of (condition key, value)) pairs. -/
structure PolicyStatement where
  effect : Effect
  principals : List Principal
  actions : List String
  resources : List String
  conditions : List (String × List (String × String))
deriving DecidableEq, Repr

/-- Mirror of s3.Bucket with the policy statements added by
addToResourcePolicy, in call order. -/
structure Bucket where
  constructId : String
  accessControl : BucketAccessControl
  lifecycleRules : List LifecycleRule
  removalPolicy : Option RemovalPolicy
  versioned : Bool
  encryption : BucketEncryption
  cors : List CorsRule
  blockPublicAccess : Bool
  resourcePolicy : List PolicyStatement
deriving DecidableEq, Repr

/-- The bucket ARN token, modelled as an injective function of the
construct id. -/
def Bucket.bucketArn (b : Bucket) : String :=
  "arn:aws:s3:::" ++ b.constructId

/-- Mirror of bucket.arnForObjects. -/
def Bucket.arnForObjects (b : Bucket) (keyPattern : String) : String :=
  b.bucketArn ++ "/" ++ keyPattern

/-- Mirror of bucket.addToResourcePolicy: append the statement to the
bucket resource policy. -/
def Bucket.addToResourcePolicy (b : Bucket) (st : PolicyStatement) : Bucket :=
  { b with resourcePolicy := b.resourcePolicy ++ [st] }

/-- Mirror of iam.Role as used in this repository. -/
structure Role where
  constructId : String
  assumedBy : String
  path : String
  managedPolicyArns : List String
deriving DecidableEq, Repr

/-- Mirror of ec2.UserData.forLinux with the commands added by
addCommands. -/
structure UserData where
  shebang : String
  commands : List String
deriving DecidableEq, Repr

/-- Mirror of autoscaling.HealthCheck as used in this repository. -/
inductive AsgHealthCheck where
  | elbWithGrace : Duration → AsgHealthCheck
  | ec2Default : AsgHealthCheck
deriving DecidableEq, Repr

/-- One CPU-utilization tracking policy added by scaleOnCpuUtilization. -/
structure CpuScalingPolicy where
  constructId : String
  targetUtilizationPercent : Nat
deriving DecidableEq, Repr

/-- Mirror of autoscaling.AutoScalingGroup; securityGroup and role hold
the construct ids of the referenced constructs, attachedTargetGroups the
construct ids passed to attachToApplicationTargetGroup. -/
structure AutoScalingGroup where
  constructId : String
  minCapacity : Nat
  maxCapacity : Nat
  vpc : String
  vpcSubnetGroupName : String
  instanceType : String
  machineImage : String
  securityGroup : String
  role : String
  userData : UserData
  healthCheck : AsgHealthCheck
  scalingPolicies : List CpuScalingPolicy
  attachedTargetGroups : List String
deriving DecidableEq, Repr

/-- Mirror of asg.scaleOnCpuUtilization. -/
def AutoScalingGroup.scaleOnCpuUtilization (g : AutoScalingGroup)
    (id : String) (pct : Nat) : AutoScalingGroup :=
  { g with scalingPolicies := g.scalingPolicies ++ [⟨id, pct⟩] }

/-- Mirror of asg.attachToApplicationTargetGroup. -/
def AutoScalingGroup.attachToApplicationTargetGroup (g : AutoScalingGroup)
    (tgId : String) : AutoScalingGroup :=
  { g with attachedTargetGroups := g.attachedTargetGroups ++ [tgId] }

/-- Mirror of ec2.InstanceClass as used in this repository. -/
inductive InstanceClass where
  | t3
deriving DecidableEq, Repr

/-- Mirror of ec2.InstanceSize as used in this repository. -/
inductive InstanceSize where
  | micro
deriving DecidableEq, Repr

/-- Mirror of ec2.InstanceType.of. -/
def instanceTypeOf : InstanceClass → InstanceSize → String
  | .t3, .micro => "t3.micro"

/-- Mirror of ec2.AmazonLinuxGeneration as used in this repository. -/
inductive AmazonLinuxGeneration where
  | amazonLinux2
deriving DecidableEq, Repr

/-- Mirror of new ec2.AmazonLinuxImage with a generation. -/
def amazonLinuxImage : AmazonLinuxGeneration → String
  | .amazonLinux2 => "AmazonLinux2"

/-- A listener added to an application load balancer by addListener. -/
structure Listener where
  constructId : String
  port : Nat
  isOpen : Bool
  defaultTargetGroups : List String
deriving DecidableEq, Repr

/-- Mirror of elbv2.ApplicationLoadBalancer; securityGroup holds the
construct id of the referenced security group, accessLogsBucket the
construct id of the bucket passed to logAccessLogs. -/
structure ApplicationLoadBalancer where
  constructId : String
  vpc : String
  internetFacing : Bool
  securityGroup : String
  vpcSubnetGroupName : String
  accessLogsBucket : Option String
  listeners : List Listener
deriving DecidableEq, Repr

/-- The load balancer ARN token, modelled as an injective function of
the construct id. -/
def ApplicationLoadBalancer.loadBalancerArn (lb : ApplicationLoadBalancer) : String :=
  "arn:aws:elasticloadbalancing:loadbalancer/" ++ lb.constructId

/-- The load balancer full-name token, modelled as an injective function
of the construct id. -/
def ApplicationLoadBalancer.loadBalancerFullName (lb : ApplicationLoadBalancer) : String :=
  "app/" ++ lb.constructId

/-- Mirror of lb.logAccessLogs. -/
def ApplicationLoadBalancer.logAccessLogs (lb : ApplicationLoadBalancer)
    (bucketId : String) : ApplicationLoadBalancer :=
  { lb with accessLogsBucket := some bucketId }

/-- Mirror of lb.addListener. -/
def ApplicationLoadBalancer.addListener (lb : ApplicationLoadBalancer)
    (id : String) (port : Nat) (isOpen : Bool) (tgs : List String) :
    ApplicationLoadBalancer :=
  { lb with listeners := lb.listeners ++ [⟨id, port, isOpen, tgs⟩] }

/-- Mirror of elbv2.ApplicationProtocol. -/
inductive ApplicationProtocol where
  | http
  | https
deriving DecidableEq, Repr

/-- Mirror of elbv2.TargetType as used in this repository. -/
inductive TargetType where
  | instanceTarget
  | ipTarget
deriving DecidableEq, Repr

/-- A target group health check as configured in this repository. -/
structure TgHealthCheck where
  enabled : Bool
  path : String
deriving DecidableEq, Repr

/-- Mirror of elbv2.ApplicationTargetGroup; loadBalancerFullName is the
full name of the load balancer the group is registered with (none while
unregistered), attributes the pairs set by setAttribute. -/
structure ApplicationTargetGroup where
  constructId : String
  vpc : String
  port : Nat
  protocol : ApplicationProtocol
  targetType : TargetType
  healthCheck : Option TgHealthCheck
  deregistrationDelay : Option Duration
  loadBalancerFullName : Option String
  attributes : List (String × String)
deriving DecidableEq, Repr

/-- The target group full-name token, modelled as an injective function
of the construct id. -/
def ApplicationTargetGroup.targetGroupFullName (tg : ApplicationTargetGroup) : String :=
  "targetgroup/" ++ tg.constructId

/-- Mirror of tg.setAttribute. -/
def ApplicationTargetGroup.setAttribute (tg : ApplicationTargetGroup)
    (k v : String) : ApplicationTargetGroup :=
  { tg with attributes := tg.attributes ++ [(k, v)] }

/-- Mirror of ecs.Cluster as used in this repository. -/
structure EcsCluster where
  constructId : String
  vpc : String
  containerInsights : Bool
deriving DecidableEq, Repr

/-- The cluster-name token, modelled as an injective function of the
construct id. -/
def EcsCluster.clusterName (c : EcsCluster) : String :=
  "cluster/" ++ c.constructId

/-- The Fargate service created inside
ecs_patterns.ApplicationLoadBalancedFargateService; cluster holds the
cluster name of the owning cluster. -/
structure FargateService where
  constructId : String
  cluster : String
  taskSubnetGroupName : String
  image : String
deriving DecidableEq, Repr

/-- The service-name token, modelled as an injective function of the
construct id. -/
def FargateService.serviceName (s : FargateService) : String :=
  "service/" ++ s.constructId

/-- Mirror of ecs_patterns.ApplicationLoadBalancedFargateService: the
pattern wires the given cluster and load balancer to a service and a
target group it creates itself. -/
structure ApplicationLoadBalancedFargateService where
  constructId : String
  service : FargateService
  targetGroup : ApplicationTargetGroup
  loadBalancer : String
deriving DecidableEq, Repr

/-- Mirror of cw.ComparisonOperator as used in this repository. -/
inductive ComparisonOperator where
  | greaterThanOrEqualToThreshold
  | lessThanThreshold
deriving DecidableEq, Repr

/-- Mirror of cw.Statistic as used in this repository. -/
inductive Statistic where
  | average
  | sum
deriving DecidableEq, Repr

/-- Mirror of cw.Metric. -/
structure Metric where
  metricName : String
  namespaceName : String
  dimensions : List (String × String)
  period : Duration
  statistic : Statistic
deriving DecidableEq, Repr

/-- Mirror of cloudwatch alarm actions as used in this repository:
cw_actions.SnsAction on a topic. -/
inductive AlarmAction where
  | snsAction : String → AlarmAction
deriving DecidableEq, Repr

/-- Mirror of cw.Alarm; datapointsToAlarm is none when the source omits
it, alarmActions the actions added by addAlarmAction in call order. -/
structure Alarm where
  constructId : String
  metric : Metric
  evaluationPeriods : Nat
  datapointsToAlarm : Option Nat
  threshold : Nat
  comparisonOperator : ComparisonOperator
  actionsEnabled : Bool
  alarmActions : List AlarmAction
deriving DecidableEq, Repr

/-- The props of metric.createAlarm as used in this repository. -/
structure CreateAlarmProps where
  evaluationPeriods : Nat
  datapointsToAlarm : Option Nat
  threshold : Nat
  comparisonOperator : ComparisonOperator
  actionsEnabled : Bool
deriving DecidableEq, Repr

/-- Mirror of metric.createAlarm. -/
def Metric.createAlarm (m : Metric) (id : String) (p : CreateAlarmProps) : Alarm :=
  { constructId := id
    metric := m
    evaluationPeriods := p.evaluationPeriods
    datapointsToAlarm := p.datapointsToAlarm
    threshold := p.threshold
    comparisonOperator := p.comparisonOperator
    actionsEnabled := p.actionsEnabled
    alarmActions := [] }

/-- Mirror of alarm.addAlarmAction. -/
def Alarm.addAlarmAction (a : Alarm) (act : AlarmAction) : Alarm :=
  { a with alarmActions := a.alarmActions ++ [act] }

/-- Mirror of ecs service.metricCpuUtilization: the AWS/ECS
CPUUtilization metric with the service's cluster and service name
dimensions. -/
def FargateService.metricCpuUtilization (s : FargateService)
    (period : Duration) (stat : Statistic) : Metric :=
  { metricName := "CPUUtilization"
    namespaceName := "AWS/ECS"
    dimensions := [("ClusterName", s.cluster), ("ServiceName", s.serviceName)]
    period := period
    statistic := stat }

/-- Mirror of lb.metricTargetResponseTime. -/
def ApplicationLoadBalancer.metricTargetResponseTime
    (lb : ApplicationLoadBalancer) (period : Duration) (stat : Statistic) : Metric :=
  { metricName := "TargetResponseTime"
    namespaceName := "AWS/ApplicationELB"
    dimensions := [("LoadBalancer", lb.loadBalancerFullName)]
    period := period
    statistic := stat }

/-- Mirror of elbv2.HttpCodeElb as used in this repository. -/
inductive HttpCodeElb where
  | elb4xxCount
  | elb5xxCount
deriving DecidableEq, Repr

/-- The CloudWatch metric name of an ELB HTTP code. -/
def HttpCodeElb.metricName : HttpCodeElb → String
  | .elb4xxCount => "HTTPCode_ELB_4XX_Count"
  | .elb5xxCount => "HTTPCode_ELB_5XX_Count"

/-- Mirror of lb.metricHttpCodeElb. -/
def ApplicationLoadBalancer.metricHttpCodeElb (lb : ApplicationLoadBalancer)
    (code : HttpCodeElb) (period : Duration) (stat : Statistic) : Metric :=
  { metricName := code.metricName
    namespaceName := "AWS/ApplicationELB"
    dimensions := [("LoadBalancer", lb.loadBalancerFullName)]
    period := period
    statistic := stat }

/-- Mirror of tg.metricHealthyHostCount. -/
def ApplicationTargetGroup.metricHealthyHostCount (tg : ApplicationTargetGroup)
    (period : Duration) (stat : Statistic) : Metric :=
  { metricName := "HealthyHostCount"
    namespaceName := "AWS/ApplicationELB"
    dimensions :=
      [("TargetGroup", tg.targetGroupFullName)] ++
        (match tg.loadBalancerFullName with
          | some n => [("LoadBalancer", n)]
          | none => [])
    period := period
    statistic := stat }

/-- Visibility configuration of a WAFv2 web ACL or rule. -/
structure WafVisibilityConfig where
  sampledRequestsEnabled : Bool
  cloudWatchMetricsEnabled : Bool
  metricName : String
deriving DecidableEq, Repr

/-- Override action of a WAFv2 rule as used in this repository. -/
inductive WafOverrideAction where
  | count
  | noOverride
deriving DecidableEq, Repr

/-- A WAFv2 rule statement as used in this repository: a managed rule
group reference with a vendor name and a group name. -/
inductive WafRuleStatement where
  | managedRuleGroup : String → String → WafRuleStatement
deriving DecidableEq, Repr

/-- One rule of a WAFv2 web ACL. -/
structure WafRule where
  priority : Nat
  overrideAction : WafOverrideAction
  visibilityConfig : WafVisibilityConfig
  name : String
  statement : WafRuleStatement
deriving DecidableEq, Repr

/-- Default action of a WAFv2 web ACL. -/
inductive WafDefaultAction where
  | allowAll
  | blockAll
deriving DecidableEq, Repr

/-- Mirror of wafv2.CfnWebACL. -/
structure CfnWebACL where
  constructId : String
  defaultAction : WafDefaultAction
  name : String
  scopeName : String
  visibilityConfig : WafVisibilityConfig
  rules : List WafRule
deriving DecidableEq, Repr

/-- The web ACL attrArn token, modelled as an injective function of the
construct id. -/
def CfnWebACL.attrArn (acl : CfnWebACL) : String :=
  "arn:aws:wafv2:webacl/" ++ acl.constructId

/-- Mirror of wafv2.CfnWebACLAssociation. -/
structure CfnWebACLAssociation where
  constructId : String
  resourceArn : String
  webAclArn : String
deriving DecidableEq, Repr

/-- Mirror of cloudfront.Distribution as used in this repository:
default behavior with an S3 origin bucket and an origin request
policy. -/
structure Distribution where
  constructId : String
  originBucket : String
  originRequestPolicy : String
deriving DecidableEq, Repr

/-- Mirror of ec2.Instance as used in this repository. -/
structure Ec2Instance where
  constructId : String
  vpc : String
  vpcSubnetGroupName : String
  instanceType : String
  machineImage : String
  securityGroup : String
  role : String
  userData : UserData
deriving DecidableEq, Repr

/-- Mirror of BsEc2appStackProps.  The VPC, log bucket and KMS key
handles are modelled as opaque identifiers. -/
structure BsEc2appStackProps where
  prodVpc : String
  environment : String
  logBucket : String
  appKey : String
deriving DecidableEq, Repr

/-- The constructs created by the BsEc2appStack constructor, plus the
public readonly field appServerSecurityGroup and the tags added via
Tags.of (target construct id, key, value). -/
structure BsEc2appStack where
  appServerSecurityGroup : Option SecurityGroup
  securityGroupForAlb : SecurityGroup
  securityGroupForApp : SecurityGroup
  webContentBucket : Bucket
  ssmInstanceRole : Role
  fleetForApp : AutoScalingGroup
  albLogBucket : Bucket
  lbForApp : ApplicationLoadBalancer
  tgForApp : ApplicationTargetGroup
  tags : List (String × String × String)
deriving DecidableEq, Repr

/-- Embedding of the BsEc2appStack constructor
(src/lib/bs-ec2app-stack.ts, lines 20-198), following the source
statement by statement. -/
def bsEc2appStack (props : BsEc2appStackProps) : BsEc2appStack :=
  let securityGroupForAlb : SecurityGroup :=
    { constructId := "security-group-for-alb"
      vpc := props.prodVpc
      allowAllOutbound := false
      ingressRules := [⟨Peer.anyIpv4, Port.tcp 80⟩]
      egressRules := [⟨Peer.anyIpv4, Port.allTcp⟩] }
  let securityGroupForApp : SecurityGroup :=
    { constructId := "security-group-for-app"
      vpc := props.prodVpc
      allowAllOutbound := false
      ingressRules := [⟨Peer.securityGroupOf securityGroupForAlb.constructId, Port.tcp 80⟩]
      egressRules := [⟨Peer.anyIpv4, Port.allTcp⟩] }
  let webContentBucket0 : Bucket :=
    { constructId := "web-content-bucket"
      accessControl := .priv
      lifecycleRules :=
        [{ enabled := true
           expiration := some (Duration.ofDays 2555)
           transitions := [⟨.glacier, Duration.ofDays 90⟩] }]
      removalPolicy := some .destroy
      versioned := false
      encryption := .kmsWith props.appKey
      cors := []
      blockPublicAccess := false
      resourcePolicy := [] }
  let webContentBucket1 := webContentBucket0.addToResourcePolicy
    { effect := .deny
      principals := [.anyPrincipal]
      actions := ["s3:*"]
      resources := [webContentBucket0.bucketArn]
      conditions := [("Bool", [("aws:SecureTransport", "false")])] }
  let webContentBucket := webContentBucket1.addToResourcePolicy
    { effect := .deny
      principals := [.anyPrincipal]
      actions := ["s3:PutObject"]
      resources := [webContentBucket1.arnForObjects "*"]
      conditions := [("StringNotEquals", [("s3:x-amz-server-side-encryption", "AES256")])] }
  let ssmInstanceRole : Role :=
    { constructId := "ssm-instance-role"
      assumedBy := "ec2.amazonaws.com"
      path := "/"
      managedPolicyArns :=
        [ "arn:aws:iam::aws:policy/AmazonSSMManagedInstanceCore",
          "arn:aws:iam::aws:policy/CloudWatchAgentServerPolicy" ] }
  let userDataForApp : UserData :=
    { shebang := "#!/bin/bash"
      commands :=
        [ "sudo yum -y install httpd",
          "sudo systemctl enable httpd",
          "sudo systemctl start httpd",
          "touch /var/www/html/index.html",
          "chown apache.apache /var/www/html/index.html" ] }
  let fleetForApp0 : AutoScalingGroup :=
    { constructId := "auto-scaling-group-app"
      minCapacity := 2
      maxCapacity := 4
      vpc := props.prodVpc
      vpcSubnetGroupName := "ProdPrivateSubnet"
      instanceType := instanceTypeOf .t3 .micro
      machineImage := amazonLinuxImage .amazonLinux2
      securityGroup := securityGroupForApp.constructId
      role := ssmInstanceRole.constructId
      userData := userDataForApp
      healthCheck := .elbWithGrace (Duration.ofSeconds 60)
      scalingPolicies := []
      attachedTargetGroups := [] }
  let fleetForApp1 := fleetForApp0.scaleOnCpuUtilization "keepSpareCPU" 50
  let albLogBucket : Bucket :=
    { constructId := "alb-log-bucket"
      accessControl := .priv
      lifecycleRules := []
      removalPolicy := none
      versioned := false
      encryption := .s3Managed
      cors := []
      blockPublicAccess := true
      resourcePolicy := [] }
  let lbForApp0 : ApplicationLoadBalancer :=
    { constructId := "alb-for-app"
      vpc := props.prodVpc
      internetFacing := true
      securityGroup := securityGroupForAlb.constructId
      vpcSubnetGroupName := "ProdPublicSubnet"
      accessLogsBucket := none
      listeners := [] }
  let lbForApp1 := lbForApp0.logAccessLogs albLogBucket.constructId
  let tgForApp : ApplicationTargetGroup :=
    { constructId := "tg-for-app"
      vpc := props.prodVpc
      port := 80
      protocol := .http
      targetType := .instanceTarget
      healthCheck := some ⟨true, "/index.html"⟩
      deregistrationDelay := some (Duration.ofSeconds 60)
      loadBalancerFullName := none
      attributes := [] }
  let lbForApp := lbForApp1.addListener "alb-listener-for-app" 80 true [tgForApp.constructId]
  let fleetForApp := fleetForApp1.attachToApplicationTargetGroup tgForApp.constructId
  { appServerSecurityGroup := some securityGroupForApp
    securityGroupForAlb := securityGroupForAlb
    securityGroupForApp := securityGroupForApp
    webContentBucket := webContentBucket
    ssmInstanceRole := ssmInstanceRole
    fleetForApp := fleetForApp
    albLogBucket := albLogBucket
    lbForApp := lbForApp
    tgForApp := tgForApp
    tags :=
      [ ("auto-scaling-group-app", "Environment", props.environment),
        ("auto-scaling-group-app", "Name", "AppServer"),
        ("auto-scaling-group-app", "Role", "FRA_AppServer"),
        ("alb-for-app", "Environment", props.environment),
        ("tg-for-app", "Environment", props.environment) ] }

/-- Mirror of GcAlbFargateStackProps.  The VPC, log bucket, KMS key and
SNS topic handles are modelled as opaque identifiers. -/
structure GcAlbFargateStackProps where
  prodVpc : String
  environment : String
  logBucket : String
  appKey : String
  alarmTopic : String
deriving DecidableEq, Repr

/-- The constructs created by the GcAlbFargateStack constructor, plus
the public readonly field appServerSecurityGroup (declared but never
assigned in the source) and the tags added via Tags.of. -/
structure GcAlbFargateStack where
  appServerSecurityGroup : Option SecurityGroup
  securityGroupForAlb : SecurityGroup
  webContentBucket : Bucket
  distribution : Distribution
  albLogBucket : Bucket
  lbForApp : ApplicationLoadBalancer
  cluster : EcsCluster
  albFargate : ApplicationLoadBalancedFargateService
  alarms : List Alarm
  webAcl : CfnWebACL
  webAclAssociation : CfnWebACLAssociation
  tags : List (String × String × String)
deriving DecidableEq, Repr

/-- Embedding of the GcAlbFargateStack constructor
(src/lib/gc-alb-fargate-stack.ts, lines 28-322), following the source
statement by statement.  The service and target group created inside
the ApplicationLoadBalancedFargateService pattern are library-internal;
their construct ids are abstracted as AlbFargate-prefixed names. -/
def gcAlbFargateStack (props : GcAlbFargateStackProps) : GcAlbFargateStack :=
  let allowdOrigins : List String :=
    [ "https://example.com",
      "https://www.example.com" ]
  let securityGroupForAlb : SecurityGroup :=
    { constructId := "SgAlb"
      vpc := props.prodVpc
      allowAllOutbound := false
      ingressRules := [⟨Peer.anyIpv4, Port.tcp 80⟩]
      egressRules := [⟨Peer.anyIpv4, Port.allTcp⟩] }
  let webContentBucket0 : Bucket :=
    { constructId := "WebBucket"
      accessControl := .priv
      lifecycleRules :=
        [{ enabled := true
           expiration := some (Duration.ofDays 2555)
           transitions := [⟨.glacier, Duration.ofDays 90⟩] }]
      removalPolicy := some .destroy
      versioned := false
      encryption := .s3Managed
      cors := [{ allowedOrigins := allowdOrigins, allowedMethods := [.get, .head] }]
      blockPublicAccess := true
      resourcePolicy := [] }
  let webContentBucket := webContentBucket0.addToResourcePolicy
    { effect := .deny
      principals := [.anyPrincipal]
      actions := ["s3:*"]
      resources := [webContentBucket0.bucketArn ++ "/*"]
      conditions := [("Bool", [("aws:SecureTransport", "false")])] }
  let distribution : Distribution :=
    { constructId := "Distribution"
      originBucket := webContentBucket.constructId
      originRequestPolicy := "CORS_S3_ORIGIN" }
  let albLogBucket : Bucket :=
    { constructId := "alb-log-bucket"
      accessControl := .priv
      lifecycleRules := []
      removalPolicy := none
      versioned := false
      encryption := .s3Managed
      cors := []
      blockPublicAccess := true
      resourcePolicy := [] }
  let lbForApp0 : ApplicationLoadBalancer :=
    { constructId := "Alb"
      vpc := props.prodVpc
      internetFacing := true
      securityGroup := securityGroupForAlb.constructId
      vpcSubnetGroupName := "Public"
      accessLogsBucket := none
      listeners := [] }
  let lbForApp := lbForApp0.logAccessLogs albLogBucket.constructId
  let cluster : EcsCluster :=
    { constructId := "Cluster"
      vpc := props.prodVpc
      containerInsights := true }
  let albFargateService : FargateService :=
    { constructId := "AlbFargate"
      cluster := cluster.clusterName
      taskSubnetGroupName := "Private"
      image := "amazon/amazon-ecs-sample" }
  let albFargateTg0 : ApplicationTargetGroup :=
    { constructId := "AlbFargateTargetGroup"
      vpc := props.prodVpc
      port := 80
      protocol := .http
      targetType := .ipTarget
      healthCheck := none
      deregistrationDelay := none
      loadBalancerFullName := some lbForApp.loadBalancerFullName
      attributes := [] }
  let albFargateTg := albFargateTg0.setAttribute "deregistration_delay.timeout_seconds" "30"
  let albFargate : ApplicationLoadBalancedFargateService :=
    { constructId := "AlbFargate"
      service := albFargateService
      targetGroup := albFargateTg
      loadBalancer := lbForApp.constructId }
  let fargateCpuUtilAlarm :=
    ((albFargate.service.metricCpuUtilization (Duration.ofMinutes 1) .average).createAlarm
      "FargateCpuUtil"
      { evaluationPeriods := 3
        datapointsToAlarm := some 3
        threshold := 80
        comparisonOperator := .greaterThanOrEqualToThreshold
        actionsEnabled := true }).addAlarmAction (.snsAction props.alarmTopic)
  let runningTaskCountMetric : Metric :=
    { metricName := "RunningTaskCount"
      namespaceName := "ECS/ContainerInsights"
      dimensions :=
        [ ("ClusterName", cluster.clusterName),
          ("ServiceName", albFargate.service.serviceName) ]
      period := Duration.ofMinutes 1
      statistic := .average }
  let runningTaskCountAlarm :=
    (runningTaskCountMetric.createAlarm
      "RunningTaskCount"
      { evaluationPeriods := 3
        datapointsToAlarm := some 2
        threshold := 1
        comparisonOperator := .lessThanThreshold
        actionsEnabled := true }).addAlarmAction (.snsAction props.alarmTopic)
  let albResponseTimeAlarm :=
    ((lbForApp.metricTargetResponseTime (Duration.ofMinutes 1) .average).createAlarm
      "AlbResponseTime"
      { evaluationPeriods := 3
        datapointsToAlarm := none
        threshold := 100
        comparisonOperator := .greaterThanOrEqualToThreshold
        actionsEnabled := true }).addAlarmAction (.snsAction props.alarmTopic)
  let albHttp4xxAlarm :=
    ((lbForApp.metricHttpCodeElb .elb4xxCount (Duration.ofMinutes 1) .sum).createAlarm
      "AlbHttp4xx"
      { evaluationPeriods := 3
        datapointsToAlarm := none
        threshold := 10
        comparisonOperator := .greaterThanOrEqualToThreshold
        actionsEnabled := true }).addAlarmAction (.snsAction props.alarmTopic)
  let albHttp5xxAlarm :=
    ((lbForApp.metricHttpCodeElb .elb5xxCount (Duration.ofMinutes 1) .sum).createAlarm
      "AlbHttp5xx"
      { evaluationPeriods := 3
        datapointsToAlarm := none
        threshold := 10
        comparisonOperator := .greaterThanOrEqualToThreshold
        actionsEnabled := true }).addAlarmAction (.snsAction props.alarmTopic)
  let albTgHealthyHostCountAlarm :=
    ((albFargate.targetGroup.metricHealthyHostCount (Duration.ofMinutes 1) .average).createAlarm
      "AlbTgHealthyHostCount"
      { evaluationPeriods := 3
        datapointsToAlarm := none
        threshold := 2
        comparisonOperator := .lessThanThreshold
        actionsEnabled := true }).addAlarmAction (.snsAction props.alarmTopic)
  let webAcl : CfnWebACL :=
    { constructId := "WebAcl"
      defaultAction := .allowAll
      name := "GcWebAcl"
      scopeName := "REGIONAL"
      visibilityConfig := ⟨true, true, "GcWebAcl"⟩
      rules :=
        [ { priority := 1
            overrideAction := .count
            visibilityConfig := ⟨true, true, "AWS-AWSManagedRulesCommonRuleSet"⟩
            name := "AWSManagedRulesCommonRuleSet"
            statement := .managedRuleGroup "AWS" "AWSManagedRulesCommonRuleSet" },
          { priority := 2
            overrideAction := .count
            visibilityConfig := ⟨true, true, "AWS-AWSManagedRulesKnownBadInputsRuleSet"⟩
            name := "AWSManagedRulesKnownBadInputsRuleSet"
            statement := .managedRuleGroup "AWS" "AWSManagedRulesKnownBadInputsRuleSet" },
          { priority := 3
            overrideAction := .count
            visibilityConfig := ⟨true, true, "AWS-AWSManagedRulesAmazonIpReputationList"⟩
            name := "AWSManagedRulesAmazonIpReputationList"
            statement := .managedRuleGroup "AWS" "AWSManagedRulesAmazonIpReputationList" },
          { priority := 4
            overrideAction := .count
            visibilityConfig := ⟨true, true, "AWS-AWSManagedRulesLinuxRuleSet"⟩
            name := "AWSManagedRulesLinuxRuleSet"
            statement := .managedRuleGroup "AWS" "AWSManagedRulesLinuxRuleSet" },
          { priority := 5
            overrideAction := .count
            visibilityConfig := ⟨true, true, "AWS-AWSManagedRulesSQLiRuleSet"⟩
            name := "AWSManagedRulesSQLiRuleSet"
            statement := .managedRuleGroup "AWS" "AWSManagedRulesSQLiRuleSet" } ] }
  let webAclAssociation : CfnWebACLAssociation :=
    { constructId := "BsWebAclAssociation"
      resourceArn := lbForApp.loadBalancerArn
      webAclArn := webAcl.attrArn }
  { appServerSecurityGroup := none
    securityGroupForAlb := securityGroupForAlb
    webContentBucket := webContentBucket
    distribution := distribution
    albLogBucket := albLogBucket
    lbForApp := lbForApp
    cluster := cluster
    albFargate := albFargate
    alarms :=
      [ fargateCpuUtilAlarm,
        runningTaskCountAlarm,
        albResponseTimeAlarm,
        albHttp4xxAlarm,
        albHttp5xxAlarm,
        albTgHealthyHostCountAlarm ]
    webAcl := webAcl
    webAclAssociation := webAclAssociation
    tags := [ ("Alb", "Environment", props.environment) ] }

/-- Mirror of GcInvestigationInstanceStackProps. -/
structure GcInvestigationInstanceStackProps where
  prodVpc : String
  environment : String
deriving DecidableEq, Repr

/-- The constructs created by the GcInvestigationInstanceStack
constructor, plus the public readonly field
InvestigationInstanceSecurityGroup (declared but never assigned in the
source) and the tags added via Tags.of. -/
structure GcInvestigationInstanceStack where
  InvestigationInstanceSecurityGroup : Option SecurityGroup
  securityGroupForEc2 : SecurityGroup
  ssmInstanceRole : Role
  investigationInstance : Ec2Instance
  tags : List (String × String × String)
deriving DecidableEq, Repr

/-- Embedding of the GcInvestigationInstanceStack constructor
(src/lib/gc-investigation-instance-stack.ts, lines 14-58).  The
security group is created without allowAllOutbound, so the library
default (true, with an all-traffic egress rule) applies. -/
def gcInvestigationInstanceStack (props : GcInvestigationInstanceStackProps) :
    GcInvestigationInstanceStack :=
  let securityGroupForEc2 : SecurityGroup :=
    { constructId := "SgEC2"
      vpc := props.prodVpc
      allowAllOutbound := true
      ingressRules := []
      egressRules := [⟨Peer.anyIpv4, Port.allTraffic⟩] }
  let ssmInstanceRole : Role :=
    { constructId := "ssm-instance-role"
      assumedBy := "ec2.amazonaws.com"
      path := "/"
      managedPolicyArns :=
        [ "arn:aws:iam::aws:policy/AmazonSSMManagedInstanceCore",
          "arn:aws:iam::aws:policy/CloudWatchAgentServerPolicy" ] }
  let userData : UserData :=
    { shebang := "#!/bin/bash"
      commands := [ "sudo yum -y install mariadb" ] }
  let investigationInstance : Ec2Instance :=
    { constructId := "Investigation"
      vpc := props.prodVpc
      vpcSubnetGroupName := "Protected"
      instanceType := instanceTypeOf .t3 .micro
      machineImage := amazonLinuxImage .amazonLinux2
      securityGroup := securityGroupForEc2.constructId
      role := ssmInstanceRole.constructId
      userData := userData }
  { InvestigationInstanceSecurityGroup := none
    securityGroupForEc2 := securityGroupForEc2
    ssmInstanceRole := ssmInstanceRole
    investigationInstance := investigationInstance
    tags :=
      [ ("Investigation", "Environment", props.environment),
        ("Investigation", "Name", "Investigation") ] }

/-- The kind and construct id of every child construct a BsEc2appStack
creates, in creation order (addListener and scaleOnCpuUtilization also
create child constructs). -/
def BsEc2appStack.constructIds (s : BsEc2appStack) : List (String × String) :=
  [ ("SecurityGroup", s.securityGroupForAlb.constructId),
    ("SecurityGroup", s.securityGroupForApp.constructId),
    ("Bucket", s.webContentBucket.constructId),
    ("Role", s.ssmInstanceRole.constructId),
    ("AutoScalingGroup", s.fleetForApp.constructId) ]
  ++ s.fleetForApp.scalingPolicies.map (fun sp => ("CpuScalingPolicy", sp.constructId))
  ++ [ ("Bucket", s.albLogBucket.constructId),
       ("ApplicationLoadBalancer", s.lbForApp.constructId),
       ("ApplicationTargetGroup", s.tgForApp.constructId) ]
  ++ s.lbForApp.listeners.map (fun l => ("Listener", l.constructId))

/-- The kind and construct id of every child construct a
GcAlbFargateStack creates, in creation order. -/
def GcAlbFargateStack.constructIds (s : GcAlbFargateStack) : List (String × String) :=
  [ ("SecurityGroup", s.securityGroupForAlb.constructId),
    ("Bucket", s.webContentBucket.constructId),
    ("Distribution", s.distribution.constructId),
    ("Bucket", s.albLogBucket.constructId),
    ("ApplicationLoadBalancer", s.lbForApp.constructId),
    ("EcsCluster", s.cluster.constructId),
    ("ApplicationLoadBalancedFargateService", s.albFargate.constructId) ]
  ++ s.alarms.map (fun a => ("Alarm", a.constructId))
  ++ [ ("CfnWebACL", s.webAcl.constructId),
       ("CfnWebACLAssociation", s.webAclAssociation.constructId) ]

/-- The kind and construct id of every child construct a
GcInvestigationInstanceStack creates, in creation order. -/
def GcInvestigationInstanceStack.constructIds (s : GcInvestigationInstanceStack) :
    List (String × String) :=
  [ ("SecurityGroup", s.securityGroupForEc2.constructId),
    ("Role", s.ssmInstanceRole.constructId),
    ("Ec2Instance", s.investigationInstance.constructId) ]

/-- A stack instance held by a CDK app: one of the three stack classes
of this repository. -/
inductive StackValue where
  | bsEc2app : BsEc2appStack → StackValue
  | gcAlbFargate : GcAlbFargateStack → StackValue
  | gcInvestigation : GcInvestigationInstanceStack → StackValue
deriving DecidableEq, Repr

/-- A CDK app modelled as the list of its stacks (stack id paired with
the stack state), in construction order. -/
abbrev CdkApp : Type := List (String × StackValue)

/-- The number of stacks of an app. -/
def CdkApp.size (app : CdkApp) : Nat :=
  List.length app

/-- Constructing a BsEc2appStack inside an app: the new stack is
appended, nothing else is touched. -/
def CdkApp.addBsEc2appStack (app : CdkApp) (id : String) (p : BsEc2appStackProps) : CdkApp :=
  List.append app [(id, .bsEc2app (bsEc2appStack p))]

/-- Constructing a GcAlbFargateStack inside an app: the new stack is
appended, nothing else is touched. -/
def CdkApp.addGcAlbFargateStack (app : CdkApp) (id : String) (p : GcAlbFargateStackProps) : CdkApp :=
  List.append app [(id, .gcAlbFargate (gcAlbFargateStack p))]

/-- The first n stacks of an app. -/
def CdkApp.takeStacks (app : CdkApp) (n : Nat) : CdkApp :=
  List.take n app

/-- The stacks of an app after the first n. -/
def CdkApp.dropStacks (app : CdkApp) (n : Nat) : CdkApp :=
  List.drop n app

/-- The deployment parameters read from parameter.ts by the entry file,
modelled as opaque values. -/
structure DevParameter where
  envName : String
  monitoringNotifyEmail : String
  monitoringSlackWorkspaceId : String
  monitoringSlackChannelId : String
  vpcCidr : String
  hostedZoneId : String
  domainName : String
  albHostName : String
  cloudFrontHostName : String
  dashboardName : String
deriving DecidableEq, Repr

/-- Modelled from the spec: the BLEAEcsAppSampleStack class is not under
src/ (only the entry file that instantiates it is); the stack is
modelled as the record of the readonly outputs the entry file reads
from it, as opaque values. -/
structure BLEAEcsAppSampleStack where
  alarmTopic : String
  albFullName : String
  albTargetGroupName : String
  albTargetGroupUnhealthyHostCountAlarm : String
  ecsClusterName : String
  ecsServiceName : String
  ecsScaleOnRequestCount : Nat
  ecsTargetUtilizationPercent : Nat
  dbClusterName : String
deriving DecidableEq, Repr

/-- Modelled from the spec: the BLEAEcsFrontendSampleStack class is not
under src/; the stack is modelled as the record of the readonly output
the entry file reads from it, as an opaque value. -/
structure BLEAEcsFrontendSampleStack where
  distributionId : String
deriving DecidableEq, Repr

/-- The props the entry file passes to BLEAEcsFrontendSampleStack
(src/unnamed/part_000, lines 32-48), excluding the generic cdk.Stack
env/crossRegionReferences entries. -/
structure BLEAEcsFrontendSampleStackProps where
  hostedZoneId : String
  domainName : String
  albHostName : String
  cloudFrontHostName : String
  alarmTopic : String
deriving DecidableEq, Repr

/-- The props the entry file passes to BLEAEcsAppMonitoringSampleStack
(src/unnamed/part_000, lines 50-75), excluding the generic cdk.Stack
env/crossRegionReferences entries. -/
structure BLEAEcsAppMonitoringSampleStackProps where
  appEndpoint : String
  dashboardName : String
  alarmTopic : String
  albFullName : String
  albTargetGroupName : String
  albTargetGroupUnhealthyHostCountAlarm : String
  ecsClusterName : String
  ecsServiceName : String
  ecsScaleOnRequestCount : Nat
  ecsTargetUtilizationPercent : Nat
  dbClusterName : String
  distributionId : String
deriving DecidableEq, Repr

/-- Embedding of the frontend-stack instantiation of the entry file:
the props record built for BLEAEcsFrontendSampleStack from the
parameters and the ecsapp stack instance. -/
def bleaEcsFrontendProps (param : DevParameter) (ecsapp : BLEAEcsAppSampleStack) :
    BLEAEcsFrontendSampleStackProps :=
  { hostedZoneId := param.hostedZoneId
    domainName := param.domainName
    albHostName := param.albHostName
    cloudFrontHostName := param.cloudFrontHostName
    alarmTopic := ecsapp.alarmTopic }

/-- Embedding of the monitoring-stack instantiation of the entry file:
the props record built for BLEAEcsAppMonitoringSampleStack from the
parameters, the ecsapp stack instance and the frontend stack
instance. -/
def bleaEcsMonitoringProps (param : DevParameter) (ecsapp : BLEAEcsAppSampleStack)
    (frontend : BLEAEcsFrontendSampleStack) : BLEAEcsAppMonitoringSampleStackProps :=
  { appEndpoint := param.cloudFrontHostName ++ "." ++ param.domainName
    dashboardName := param.dashboardName
    alarmTopic := ecsapp.alarmTopic
    albFullName := ecsapp.albFullName
    albTargetGroupName := ecsapp.albTargetGroupName
    albTargetGroupUnhealthyHostCountAlarm := ecsapp.albTargetGroupUnhealthyHostCountAlarm
    ecsClusterName := ecsapp.ecsClusterName
    ecsServiceName := ecsapp.ecsServiceName
    ecsScaleOnRequestCount := ecsapp.ecsScaleOnRequestCount
    ecsTargetUtilizationPercent := ecsapp.ecsTargetUtilizationPercent
    dbClusterName := ecsapp.dbClusterName
    distributionId := frontend.distributionId }

/-- A concrete props value for BsEc2appStack, used to instantiate the
universally quantified theorems. -/
def sampleBsProps : BsEc2appStackProps :=
  { prodVpc := "vpc-1"
    environment := "Dev"
    logBucket := "central-log-bucket"
    appKey := "app-key-1" }

/-- A concrete props value for GcAlbFargateStack, used to instantiate
the universally quantified theorems. -/
def sampleGcProps : GcAlbFargateStackProps :=
  { prodVpc := "vpc-1"
    environment := "Dev"
    logBucket := "central-log-bucket"
    appKey := "app-key-1"
    alarmTopic := "alarm-topic-1" }

/-- C1: for every valid props, the WAFv2 web ACL created by
GcAlbFargateStack has default action allow and exactly five rules, each
an AWS managed rule group statement with vendor name AWS referenced by
name (CommonRuleSet, KnownBadInputsRuleSet, AmazonIpReputationList,
LinuxRuleSet, SQLiRuleSet), with priorities 1 through 5 in that order
and override action count, and the web ACL association targets the ARN
of the stack's application load balancer. -/
theorem gcAlbFargate_webAcl_rules_and_association (p : GcAlbFargateStackProps) :
    (gcAlbFargateStack p).webAcl.defaultAction = WafDefaultAction.allowAll ∧
    (gcAlbFargateStack p).webAcl.rules.length = 5 ∧
    ((gcAlbFargateStack p).webAcl.rules.map fun r =>
        (r.priority, r.name, r.overrideAction, r.statement)) =
      [ (1, "AWSManagedRulesCommonRuleSet", WafOverrideAction.count,
          WafRuleStatement.managedRuleGroup "AWS" "AWSManagedRulesCommonRuleSet"),
        (2, "AWSManagedRulesKnownBadInputsRuleSet", WafOverrideAction.count,
          WafRuleStatement.managedRuleGroup "AWS" "AWSManagedRulesKnownBadInputsRuleSet"),
        (3, "AWSManagedRulesAmazonIpReputationList", WafOverrideAction.count,
          WafRuleStatement.managedRuleGroup "AWS" "AWSManagedRulesAmazonIpReputationList"),
        (4, "AWSManagedRulesLinuxRuleSet", WafOverrideAction.count,
          WafRuleStatement.managedRuleGroup "AWS" "AWSManagedRulesLinuxRuleSet"),
        (5, "AWSManagedRulesSQLiRuleSet", WafOverrideAction.count,
          WafRuleStatement.managedRuleGroup "AWS" "AWSManagedRulesSQLiRuleSet") ] ∧
    (gcAlbFargateStack p).webAclAssociation.resourceArn =
      (gcAlbFargateStack p).lbForApp.loadBalancerArn :=
  ⟨rfl, rfl, rfl, rfl⟩

/-- C2: for every valid props, BsEc2appStack creates both security
groups with allowAllOutbound false; the ALB security group admits
ingress TCP 80 from any IPv4 peer, the app security group admits
ingress TCP 80 only from the ALB security group, the load balancer's
listener on port 80 has the app target group (port 80, HTTP, instance
targets) as its only default target group, and the auto scaling group
is attached to that target group. -/
theorem bsEc2app_security_groups_and_listener_topology (p : BsEc2appStackProps) :
    (bsEc2appStack p).securityGroupForAlb.allowAllOutbound = false ∧
    (bsEc2appStack p).securityGroupForApp.allowAllOutbound = false ∧
    (bsEc2appStack p).securityGroupForAlb.ingressRules = [⟨Peer.anyIpv4, Port.tcp 80⟩] ∧
    (bsEc2appStack p).securityGroupForApp.ingressRules =
      [⟨Peer.securityGroupOf (bsEc2appStack p).securityGroupForAlb.constructId, Port.tcp 80⟩] ∧
    (bsEc2appStack p).lbForApp.listeners =
      [⟨"alb-listener-for-app", 80, true, [(bsEc2appStack p).tgForApp.constructId]⟩] ∧
    (bsEc2appStack p).tgForApp.port = 80 ∧
    (bsEc2appStack p).tgForApp.protocol = ApplicationProtocol.http ∧
    (bsEc2appStack p).tgForApp.targetType = TargetType.instanceTarget ∧
    (bsEc2appStack p).fleetForApp.attachedTargetGroups =
      [(bsEc2appStack p).tgForApp.constructId] :=
  ⟨rfl, rfl, rfl, rfl, rfl, rfl, rfl, rfl, rfl⟩

/-- C3: for every valid props, GcAlbFargateStack creates exactly six
alarms, in order Fargate CPU utilization (threshold 80, greater-or-equal,
3 evaluation periods, 3 datapoints), RunningTaskCount (threshold 1,
less-than, 3 evaluation periods, 2 datapoints), ALB target response
time (threshold 100, greater-or-equal), ALB 4XX count (threshold 10,
greater-or-equal), ALB 5XX count (threshold 10, greater-or-equal) and
healthy host count (threshold 2, less-than), all over 1-minute metric
periods, each with exactly one alarm action, the SNS action on
props.alarmTopic. -/
theorem gcAlbFargate_six_alarms_with_sns_actions (p : GcAlbFargateStackProps) :
    (gcAlbFargateStack p).alarms.length = 6 ∧
    ((gcAlbFargateStack p).alarms.map fun a =>
        (a.metric.metricName, a.threshold, a.comparisonOperator,
          a.evaluationPeriods, a.datapointsToAlarm)) =
      [ ("CPUUtilization", 80, ComparisonOperator.greaterThanOrEqualToThreshold, 3, some 3),
        ("RunningTaskCount", 1, ComparisonOperator.lessThanThreshold, 3, some 2),
        ("TargetResponseTime", 100, ComparisonOperator.greaterThanOrEqualToThreshold, 3, none),
        ("HTTPCode_ELB_4XX_Count", 10, ComparisonOperator.greaterThanOrEqualToThreshold, 3, none),
        ("HTTPCode_ELB_5XX_Count", 10, ComparisonOperator.greaterThanOrEqualToThreshold, 3, none),
        ("HealthyHostCount", 2, ComparisonOperator.lessThanThreshold, 3, none) ] ∧
    ((gcAlbFargateStack p).alarms.map fun a => a.metric.period) =
      List.replicate 6 (Duration.ofMinutes 1) ∧
    ((gcAlbFargateStack p).alarms.map fun a => a.alarmActions) =
      List.replicate 6 [AlarmAction.snsAction p.alarmTopic] :=
  ⟨rfl, rfl, rfl, rfl⟩

/-- C4: the entry file passes the alarmTopic exposed by the
BLEAEcsAppSampleStack instance unchanged as the alarmTopic input of
both the BLEAEcsFrontendSampleStack instance and the
BLEAEcsAppMonitoringSampleStack instance, and the distributionId
exposed by the frontend stack unchanged as the distributionId input of
the monitoring stack. -/
theorem entryFile_alarmTopic_and_distributionId_passthrough
    (param : DevParameter) (ecsapp : BLEAEcsAppSampleStack)
    (frontend : BLEAEcsFrontendSampleStack) :
    (bleaEcsFrontendProps param ecsapp).alarmTopic = ecsapp.alarmTopic ∧
    (bleaEcsMonitoringProps param ecsapp frontend).alarmTopic = ecsapp.alarmTopic ∧
    (bleaEcsMonitoringProps param ecsapp frontend).distributionId = frontend.distributionId :=
  ⟨rfl, rfl, rfl⟩

/-- C5: each of the three stack constructors creates the same fixed set
of child constructs (same resource kinds, same construct ids) for every
props value; the kind/id list of each stack is a constant,
props-independent list. -/
theorem stack_construct_ids_independent_of_props
    (pb pb' : BsEc2appStackProps) (pg pg' : GcAlbFargateStackProps)
    (pv pv' : GcInvestigationInstanceStackProps) :
    (bsEc2appStack pb).constructIds = (bsEc2appStack pb').constructIds ∧
    (gcAlbFargateStack pg).constructIds = (gcAlbFargateStack pg').constructIds ∧
    (gcInvestigationInstanceStack pv).constructIds =
      (gcInvestigationInstanceStack pv').constructIds ∧
    (bsEc2appStack pb).constructIds =
      [ ("SecurityGroup", "security-group-for-alb"),
        ("SecurityGroup", "security-group-for-app"),
        ("Bucket", "web-content-bucket"),
        ("Role", "ssm-instance-role"),
        ("AutoScalingGroup", "auto-scaling-group-app"),
        ("CpuScalingPolicy", "keepSpareCPU"),
        ("Bucket", "alb-log-bucket"),
        ("ApplicationLoadBalancer", "alb-for-app"),
        ("ApplicationTargetGroup", "tg-for-app"),
        ("Listener", "alb-listener-for-app") ] ∧
    (gcAlbFargateStack pg).constructIds =
      [ ("SecurityGroup", "SgAlb"),
        ("Bucket", "WebBucket"),
        ("Distribution", "Distribution"),
        ("Bucket", "alb-log-bucket"),
        ("ApplicationLoadBalancer", "Alb"),
        ("EcsCluster", "Cluster"),
        ("ApplicationLoadBalancedFargateService", "AlbFargate"),
        ("Alarm", "FargateCpuUtil"),
        ("Alarm", "RunningTaskCount"),
        ("Alarm", "AlbResponseTime"),
        ("Alarm", "AlbHttp4xx"),
        ("Alarm", "AlbHttp5xx"),
        ("Alarm", "AlbTgHealthyHostCount"),
        ("CfnWebACL", "WebAcl"),
        ("CfnWebACLAssociation", "BsWebAclAssociation") ] ∧
    (gcInvestigationInstanceStack pv).constructIds =
      [ ("SecurityGroup", "SgEC2"),
        ("Role", "ssm-instance-role"),
        ("Ec2Instance", "Investigation") ] :=
  ⟨rfl, rfl, rfl, rfl, rfl, rfl⟩

/-- C6: synthesis is deterministic and effect-free: equal props give
equal stack states, and constructing a stack inside an app only appends
the new stack, leaving every previously present stack unchanged. -/
theorem synthesis_deterministic_and_effect_free
    (app : CdkApp) (id : String)
    (pb pb' : BsEc2appStackProps) (pg pg' : GcAlbFargateStackProps)
    (hb : pb = pb') (hg : pg = pg') :
    bsEc2appStack pb = bsEc2appStack pb' ∧
    gcAlbFargateStack pg = gcAlbFargateStack pg' ∧
    (app.addBsEc2appStack id pb).takeStacks app.size = app ∧
    (app.addBsEc2appStack id pb).dropStacks app.size =
      [(id, StackValue.bsEc2app (bsEc2appStack pb))] ∧
    (app.addGcAlbFargateStack id pg).takeStacks app.size = app ∧
    (app.addGcAlbFargateStack id pg).dropStacks app.size =
      [(id, StackValue.gcAlbFargate (gcAlbFargateStack pg))] := by
  subst hb
  subst hg
  refine ⟨rfl, rfl, ?_, ?_, ?_, ?_⟩ <;>
    simp [CdkApp.addBsEc2appStack, CdkApp.addGcAlbFargateStack,
      CdkApp.takeStacks, CdkApp.dropStacks, CdkApp.size]

/-- Witness for C6 at a concrete empty app and concrete props. -/
theorem synthesis_deterministic_and_effect_free_witness :
    bsEc2appStack sampleBsProps = bsEc2appStack sampleBsProps ∧
    gcAlbFargateStack sampleGcProps = gcAlbFargateStack sampleGcProps ∧
    (CdkApp.addBsEc2appStack [] "Stack1" sampleBsProps).takeStacks (CdkApp.size []) = [] ∧
    (CdkApp.addBsEc2appStack [] "Stack1" sampleBsProps).dropStacks (CdkApp.size []) =
      [("Stack1", StackValue.bsEc2app (bsEc2appStack sampleBsProps))] ∧
    (CdkApp.addGcAlbFargateStack [] "Stack1" sampleGcProps).takeStacks (CdkApp.size []) = [] ∧
    (CdkApp.addGcAlbFargateStack [] "Stack1" sampleGcProps).dropStacks (CdkApp.size []) =
      [("Stack1", StackValue.gcAlbFargate (gcAlbFargateStack sampleGcProps))] :=
  synthesis_deterministic_and_effect_free [] "Stack1"
    sampleBsProps sampleBsProps sampleGcProps sampleGcProps rfl rfl

/-- C7: in both BsEc2appStack and GcAlbFargateStack, the web-content
bucket is private, unversioned, has removal policy DESTROY, and has
exactly one enabled lifecycle rule transitioning to Glacier after 90
days and expiring after 2555 days. -/
theorem webContentBucket_private_lifecycle
    (pb : BsEc2appStackProps) (pg : GcAlbFargateStackProps) :
    ((bsEc2appStack pb).webContentBucket.accessControl = BucketAccessControl.priv ∧
      (bsEc2appStack pb).webContentBucket.versioned = false ∧
      (bsEc2appStack pb).webContentBucket.removalPolicy = some RemovalPolicy.destroy ∧
      (bsEc2appStack pb).webContentBucket.lifecycleRules =
        [{ enabled := true
           expiration := some (Duration.ofDays 2555)
           transitions := [⟨StorageClass.glacier, Duration.ofDays 90⟩] }]) ∧
    ((gcAlbFargateStack pg).webContentBucket.accessControl = BucketAccessControl.priv ∧
      (gcAlbFargateStack pg).webContentBucket.versioned = false ∧
      (gcAlbFargateStack pg).webContentBucket.removalPolicy = some RemovalPolicy.destroy ∧
      (gcAlbFargateStack pg).webContentBucket.lifecycleRules =
        [{ enabled := true
           expiration := some (Duration.ofDays 2555)
           transitions := [⟨StorageClass.glacier, Duration.ofDays 90⟩] }]) :=
  ⟨⟨rfl, rfl, rfl, rfl⟩, ⟨rfl, rfl, rfl, rfl⟩⟩

/-- C8: the appServerSecurityGroup field of GcAlbFargateStack and the
InvestigationInstanceSecurityGroup field of GcInvestigationInstanceStack
are never assigned (none after construction); BsEc2appStack assigns its
appServerSecurityGroup field to the app security group, which is the
security group of the auto scaling group. -/
theorem unassigned_security_group_fields
    (pb : BsEc2appStackProps) (pg : GcAlbFargateStackProps)
    (pv : GcInvestigationInstanceStackProps) :
    (gcAlbFargateStack pg).appServerSecurityGroup = none ∧
    (gcInvestigationInstanceStack pv).InvestigationInstanceSecurityGroup = none ∧
    (bsEc2appStack pb).appServerSecurityGroup = some (bsEc2appStack pb).securityGroupForApp ∧
    (bsEc2appStack pb).fleetForApp.securityGroup =
      (bsEc2appStack pb).securityGroupForApp.constructId :=
  ⟨rfl, rfl, rfl, rfl⟩

/-- C9: neither BsEc2appStack nor GcAlbFargateStack ever reads
props.logBucket: the constructed stack state is the same for any two
values of that prop, the prop itself is left unchanged, and ALB access
logs go to the albLogBucket created inside each stack. -/
theorem logBucket_prop_never_used
    (pb : BsEc2appStackProps) (pg : GcAlbFargateStackProps) (b b' : String) :
    bsEc2appStack { pb with logBucket := b } = bsEc2appStack { pb with logBucket := b' } ∧
    gcAlbFargateStack { pg with logBucket := b } = gcAlbFargateStack { pg with logBucket := b' } ∧
    ({ pb with logBucket := b } : BsEc2appStackProps).logBucket = b ∧
    ({ pg with logBucket := b } : GcAlbFargateStackProps).logBucket = b ∧
    (bsEc2appStack pb).lbForApp.accessLogsBucket =
      some (bsEc2appStack pb).albLogBucket.constructId ∧
    (gcAlbFargateStack pg).lbForApp.accessLogsBucket =
      some (gcAlbFargateStack pg).albLogBucket.constructId :=
  ⟨rfl, rfl, rfl, rfl, rfl, rfl⟩

/-- C10: the deny-without-SSL statement of the BsEc2appStack web-content
bucket lists exactly one resource, the bucket ARN itself (not the
object pattern); the corresponding statement of the GcAlbFargateStack
web-content bucket lists exactly one resource, the object pattern
bucketArn followed by slash-star (not the bucket ARN itself). -/
theorem ssl_deny_statement_resources
    (pb : BsEc2appStackProps) (pg : GcAlbFargateStackProps) :
    (bsEc2appStack pb).webContentBucket.resourcePolicy.head? = some
      { effect := Effect.deny
        principals := [Principal.anyPrincipal]
        actions := ["s3:*"]
        resources := [(bsEc2appStack pb).webContentBucket.bucketArn]
        conditions := [("Bool", [("aws:SecureTransport", "false")])] } ∧
    (gcAlbFargateStack pg).webContentBucket.resourcePolicy =
      [ { effect := Effect.deny
          principals := [Principal.anyPrincipal]
          actions := ["s3:*"]
          resources := [(gcAlbFargateStack pg).webContentBucket.bucketArn ++ "/*"]
          conditions := [("Bool", [("aws:SecureTransport", "false")])] } ] ∧
    (bsEc2appStack pb).webContentBucket.bucketArn ++ "/*" ≠
      (bsEc2appStack pb).webContentBucket.bucketArn ∧
    (gcAlbFargateStack pg).webContentBucket.bucketArn ≠
      (gcAlbFargateStack pg).webContentBucket.bucketArn ++ "/*" := by
  refine ⟨rfl, rfl, ?_, ?_⟩
  · show ("arn:aws:s3:::web-content-bucket/*" : String) ≠ "arn:aws:s3:::web-content-bucket"
    decide
  · show ("arn:aws:s3:::WebBucket" : String) ≠ "arn:aws:s3:::WebBucket/*"
    decide
